import Mathlib

/-!
Shallow embedding of the Jupyter session-lifecycle core of this repository:
`BaseJupyterSession` (shutdown / restart / changeKernel / waitForIdleOnSession
and the request methods) and the connection retry loop of
`JupyterExecutionBase.connectToNotebookServer`.

Asynchronous collaborators (the backend, subclass hooks such as
`createNewKernelSession`/`startRestartSession`, event delivery) are passed in
explicitly as parameters; every observable action of the code (listener
connect/disconnect, dispose calls, backend shutdown requests, thrown errors)
is recorded in an explicit effect list or result value, so each method body
below is a line-by-line transcription of the TypeScript source.
-/

namespace JupyterModel

/-- Kernel statuses used by the session code (`Kernel.Status` of
`@jupyterlab/services`); `unknown` stands for the remaining statuses that the
`getServerStatus` switch sends to its from `default` branch. -/
inductive KernelStatus
  | idle
  | busy
  | dead
  | starting
  | restarting
  | autorestarting
  | reconnecting
  | connected
  | unknown
  deriving DecidableEq, Repr

/-- `ServerStatus` of the UI layer (the target of `getServerStatus`).
Modelled from the spec: the session state machine states of section 4.2. -/
inductive ServerStatus
  | notStarted
  | busy
  | idle
  | dead
  | restarting
  | starting
  deriving DecidableEq, Repr

/-- Resource classification. Modelled from the spec: `getResourceType` (from
`./common`, not part of the sources here) classifies a defined resource as an
interactive-window resource or a notebook resource. -/
inductive ResourceType
  | interactive
  | notebook
  deriving DecidableEq, Repr

/-- A `Resource` is an optional Uri; only its classification matters to this
code, so it is carried directly. -/
abbrev Resource := Option ResourceType

/-- `getResourceType` applied to a defined resource.
Modelled from the spec: returns the resource class of the Uri. -/
def getResourceType (r : ResourceType) : ResourceType := r

/-- The four kinds of the `KernelConnectionMetadata` tagged union
(`kernels/types`). -/
inductive MetadataKind
  | connectToLiveKernel
  | startUsingKernelSpec
  | startUsingDefaultKernel
  | startUsingPythonInterpreter
  deriving DecidableEq, Repr

/-- A kernel spec; only its identity matters to the embedded code. -/
structure KernelSpec where
  specName : String
  deriving DecidableEq, Repr

/-- `KernelConnectionMetadata`: tagged kind, id, and the optional `kernelSpec`
payload (present for `startUsingKernelSpec` / `startUsingPythonInterpreter`,
optional for `startUsingDefaultKernel`, absent for `connectToLiveKernel`). -/
structure KernelConnectionMetadata where
  kind : MetadataKind
  id : String
  kernelSpec : Option KernelSpec
  deriving DecidableEq, Repr

/-- `kernelConnectionMetadataHasKernelSpec` (from `kernels/helpers`, not part
of the sources here). Modelled from the spec: the type guard holds for the
kinds of the tagged union other than the live-kernel attach kind. -/
def kernelConnectionMetadataHasKernelSpec (m : KernelConnectionMetadata) : Bool :=
  m.kind != MetadataKind.connectToLiveKernel

/-- The kernel handle carried by a session (`session.kernel`); only its id
matters to the embedded code. -/
structure KernelObj where
  id : String
  deriving DecidableEq, Repr

/-- An `ISessionWithSocket` as seen by `BaseJupyterSession`: a numeric identity
(used to name it in effect traces) plus the fields the embedded code reads. -/
structure SessionObj where
  sid : Nat
  kernel : Option KernelObj
  isRemoteSession : Bool
  resource : Resource
  kernelConnectionMetadata : Option KernelConnectionMetadata
  isDisposed : Bool
  deriving DecidableEq, Repr

/-- Observable actions of the session code, recorded in order. -/
inductive Effect
  | disconnectStatusListener (sid : Nat)
  | connectStatusListener (sid : Nat)
  | disconnectIOPub (sid : Nat)
  | connectIOPub (sid : Nat)
  | kernelSocketEmitted (sid : Nat)
  | localDispose (sid : Nat)
  | backendShutdownRequest (sid : Nat)
  | remoteKernelRestart (sid : Nat)
  | restartSessionUsedNotified (kernel : Option KernelObj)
  | startRestartSessionCalled
  | createNewKernelSessionCalled
  | interruptRequestSent (sid : Nat)
  | inputReplySent (sid : Nat)
  | statusEmitterDisposed
  deriving DecidableEq, Repr

/-- `BaseJupyterSession.canShutdownSession` (part_000 lines 635-654),
transcribed clause for clause. -/
def canShutdownSession (session : SessionObj)
    (isRequestToShutDownRestartSession : Bool) : Bool :=
  -- We can never shut down existing (live) kernels.
  if session.kernelConnectionMetadata.map (·.kind) =
      some MetadataKind.connectToLiveKernel then
    false
  -- We can always shutdown restart sessions.
  else if isRequestToShutDownRestartSession then
    true
  -- If this Interactive Window, then always shutdown sessions.
  else if session.resource.map getResourceType = some ResourceType.interactive then
    true
  -- If we're in notebooks and using Remote Jupyter connections, then never
  -- shutdown the sessions.
  else if session.resource.map getResourceType = some ResourceType.notebook &&
      session.isRemoteSession then
    false
  else
    true

/-- `BaseJupyterSession.shutdownSession` (part_000 lines 598-634) as the list
of observable actions it performs.  `withStatusHandler` records whether a
status handler was passed (`statusHandler !== undefined`).  The backend's
mutation of `isDisposed` during the awaited shutdown is not modelled: both
reads of `session.isDisposed` see the value at entry. -/
def shutdownSessionEffects (session : Option SessionObj)
    (withStatusHandler : Bool)
    (isRequestToShutDownRestartSession : Bool) : List Effect :=
  match session with
  | none => []
  | some s =>
    if s.kernel.isSome then
      (if withStatusHandler then [Effect.disconnectStatusListener s.sid] else []) ++
      (if !canShutdownSession s isRequestToShutDownRestartSession then
        [Effect.localDispose s.sid]
      else
        (if !s.isDisposed then [Effect.backendShutdownRequest s.sid] else []) ++
        (if !s.isDisposed then [Effect.localDispose s.sid] else []))
    else
      []

/-- The mutable state of a `BaseJupyterSession` read by the embedded methods:
`this.resource`, `this._session`, `this.restartSessionPromise` (as the value
the promise resolves to), and `this.kernelConnectionMetadata`. -/
structure SessionState where
  resource : Resource
  session : Option SessionObj
  restartSessionPromise : Option (Option SessionObj)
  kernelConnectionMetadata : Option KernelConnectionMetadata
  deriving DecidableEq, Repr

/-- The single error the session front door throws when no usable session is
present (`localize.DataScience.sessionDisposed()`). -/
inductive SessionError
  | sessionDisposed
  deriving DecidableEq, Repr

/-- `BaseJupyterSession.setSession` (part_000 lines 570-597) as its observable
actions: disconnect the old handle's iopub hook, connect the new one, and emit
on the kernel-socket observable when a different session comes in. -/
def setSessionEffects (old new : Option SessionObj) : List Effect :=
  (match old with
   | some o => [Effect.disconnectIOPub o.sid]
   | none => []) ++
  (match new with
   | some n => [Effect.connectIOPub n.sid]
   | none => []) ++
  (match new with
   | some n => if old ≠ some n then [Effect.kernelSocketEmitted n.sid] else []
   | none => [])

/-- `BaseJupyterSession.shutdown` (part_000 lines 263-284): tear down the
primary session, then the awaited standby (as a restart session), swap in
`undefined`, and dispose the status-changed emitter (the emitter field is
definitely assigned, so its guard is always taken). -/
def shutdown (st : SessionState) : SessionState × List Effect :=
  match st.session with
  | some s =>
    let effs :=
      shutdownSessionEffects (some s) true false ++
      (match st.restartSessionPromise with
       | some r => shutdownSessionEffects r false true
       | none => []) ++
      setSessionEffects (some s) none
    ({ st with session := none, restartSessionPromise := none },
      effs ++ [Effect.statusEmitterDisposed])
  | none => (st, [Effect.statusEmitterDisposed])

/-- `BaseJupyterSession.restart` (part_000 lines 359-398).
`startRestartResult` is what the abstract subclass hook `startRestartSession`
installs as `this.restartSessionPromise` when it is invoked (`none` when the
hook fails to install a promise); the inner `Option SessionObj` is the value
an installed promise resolves to. -/
def restart (st : SessionState) (startRestartResult : Option (Option SessionObj)) :
    SessionState × List Effect × Option SessionError :=
  if (st.session.map (·.isRemoteSession)).getD false then
    (st, [Effect.remoteKernelRestart ((st.session.map (·.sid)).getD 0)], none)
  else
    -- Start the restart session now in case it wasn't started
    let started := st.restartSessionPromise.isNone
    let st1 :=
      if started then { st with restartSessionPromise := startRestartResult } else st
    let effs1 := if started then [Effect.startRestartSessionCalled] else []
    match st1.restartSessionPromise with
    | none => (st1, effs1, some SessionError.sessionDisposed)
    | some resolved =>
      let oldSession := st1.session
      let effsSwap := setSessionEffects oldSession resolved
      let st2 := { st1 with session := resolved }
      match resolved with
      | none => (st2, effs1 ++ effsSwap, some SessionError.sessionDisposed)
      | some newS =>
        let st3 := { st2 with restartSessionPromise := none }
        let effsOld :=
          match oldSession with
          | some o => [Effect.disconnectStatusListener o.sid]
          | none => []
        (st3,
          effs1 ++ effsSwap ++
            [Effect.restartSessionUsedNotified newS.kernel,
             Effect.connectStatusListener newS.sid] ++
            effsOld ++ shutdownSessionEffects oldSession false false,
          none)

/-- The non-no-op tail of `changeKernel` (part_000 lines 338-357): create the
new session, fire-and-forget shutdown of the old session and of the resolved
standby, store the new metadata, install the new session and connect its
status listener.  `newSessionResult` is the session the abstract subclass hook
`createNewKernelSession` returns. -/
def changeKernelProceed (st : SessionState) (kernelConnection : KernelConnectionMetadata)
    (newSessionResult : SessionObj) : SessionState × List Effect :=
  let effsOld :=
    match st.session with
    | some s =>
      shutdownSessionEffects (some s) true false ++
      (match st.restartSessionPromise with
       | some r => shutdownSessionEffects r false true
       | none => [])
    | none => []
  let effsSwap := setSessionEffects st.session (some newSessionResult)
  ({ st with
      kernelConnectionMetadata := some kernelConnection,
      session := some newSessionResult },
    [Effect.createNewKernelSessionCalled] ++ effsOld ++ effsSwap ++
      [Effect.connectStatusListener newSessionResult.sid])

/-- `BaseJupyterSession.changeKernel` (part_000 lines 316-357): sets
`this.resource`, early-returns when an active session exists, both the stored
and the requested metadata carry kernel specs, and the ids coincide; otherwise
runs the switch tail. -/
def changeKernel (st : SessionState) (resource : Resource)
    (kernelConnection : KernelConnectionMetadata)
    (newSessionResult : SessionObj) : SessionState × List Effect :=
  let st := { st with resource := resource }
  let currentKernelSpec :=
    match st.kernelConnectionMetadata with
    | some m => if kernelConnectionMetadataHasKernelSpec m then m.kernelSpec else none
    | none => none
  let kernelSpecToUse :=
    if kernelConnectionMetadataHasKernelSpec kernelConnection then
      kernelConnection.kernelSpec
    else none
  if st.session.isSome && currentKernelSpec.isSome && kernelSpecToUse.isSome &&
      st.kernelConnectionMetadata.isSome then
    if st.kernelConnectionMetadata.map (·.id) = some kernelConnection.id then
      -- Kernels are the same, no switching necessary.
      (st, [])
    else
      changeKernelProceed st kernelConnection newSessionResult
  else
    changeKernelProceed st kernelConnection newSessionResult

/-- The kernel of the active session, `this.session?.kernel`. -/
def sessionKernel (st : SessionState) : Option KernelObj :=
  st.session.bind (·.kernel)

/-- `requestExecute` (part_000 lines 400-409): throws when no session/kernel,
otherwise forwards to the kernel (result is the session id it forwards to). -/
def requestExecute (st : SessionState) : Except SessionError Nat :=
  match st.session with
  | some s =>
    match s.kernel with
    | some _ => Except.ok s.sid
    | none => Except.error SessionError.sessionDisposed
  | none => Except.error SessionError.sessionDisposed

/-- `requestDebug` (part_000 lines 411-419). -/
def requestDebug (st : SessionState) : Except SessionError Nat :=
  match st.session with
  | some s =>
    match s.kernel with
    | some _ => Except.ok s.sid
    | none => Except.error SessionError.sessionDisposed
  | none => Except.error SessionError.sessionDisposed

/-- `requestInspect` (part_000 lines 421-428). -/
def requestInspect (st : SessionState) : Except SessionError Nat :=
  match st.session with
  | some s =>
    match s.kernel with
    | some _ => Except.ok s.sid
    | none => Except.error SessionError.sessionDisposed
  | none => Except.error SessionError.sessionDisposed

/-- `requestComplete` (part_000 lines 430-437). -/
def requestComplete (st : SessionState) : Except SessionError Nat :=
  match st.session with
  | some s =>
    match s.kernel with
    | some _ => Except.ok s.sid
    | none => Except.error SessionError.sessionDisposed
  | none => Except.error SessionError.sessionDisposed

/-- `registerCommTarget` (part_000 lines 446-455). -/
def registerCommTarget (st : SessionState) : Except SessionError Nat :=
  match st.session with
  | some s =>
    match s.kernel with
    | some _ => Except.ok s.sid
    | none => Except.error SessionError.sessionDisposed
  | none => Except.error SessionError.sessionDisposed

/-- `registerMessageHook` (part_000 lines 457-466). -/
def registerMessageHook (st : SessionState) : Except SessionError Nat :=
  match st.session with
  | some s =>
    match s.kernel with
    | some _ => Except.ok s.sid
    | none => Except.error SessionError.sessionDisposed
  | none => Except.error SessionError.sessionDisposed

/-- `removeMessageHook` (part_000 lines 467-476). -/
def removeMessageHook (st : SessionState) : Except SessionError Nat :=
  match st.session with
  | some s =>
    match s.kernel with
    | some _ => Except.ok s.sid
    | none => Except.error SessionError.sessionDisposed
  | none => Except.error SessionError.sessionDisposed

/-- `interrupt` (part_000 lines 285-297): with a live session and kernel it
connects the status handler and sends the interrupt request; with none it
silently returns (no throw, no backend traffic). -/
def interrupt (st : SessionState) : List Effect :=
  match st.session with
  | some s =>
    match s.kernel with
    | some _ => [Effect.connectStatusListener s.sid, Effect.interruptRequestSent s.sid]
    | none => []
  | none => []

/-- `sendInputReply` (part_000 lines 439-444): forwards when a session and
kernel exist, silently does nothing otherwise. -/
def sendInputReply (st : SessionState) : List Effect :=
  match st.session with
  | some s =>
    match s.kernel with
    | some _ => [Effect.inputReplySent s.sid]
    | none => []
  | none => []

/-- `getServerStatus` (part_000 lines 655-677): the status switch applied to
`this.session?.kernel.status` (`none` stands for no active session). -/
def getServerStatus (sessionKernelStatus : Option KernelStatus) : ServerStatus :=
  match sessionKernelStatus with
  | none => ServerStatus.notStarted
  | some s =>
    match s with
    | KernelStatus.busy => ServerStatus.busy
    | KernelStatus.dead => ServerStatus.dead
    | KernelStatus.idle => ServerStatus.idle
    | KernelStatus.connected => ServerStatus.idle
    | KernelStatus.restarting => ServerStatus.restarting
    | KernelStatus.autorestarting => ServerStatus.restarting
    | KernelStatus.reconnecting => ServerStatus.restarting
    | KernelStatus.starting => ServerStatus.starting
    | KernelStatus.unknown => ServerStatus.notStarted

/-- An event delivered to the two subscriptions `waitForIdleOnSession`
registers while its race is pending: a `statusChanged` signal carries a kernel
status, a `kernelChanged` signal carries `e.newValue?.status`. -/
inductive WaitEvent
  | statusChanged (s : KernelStatus)
  | kernelChanged (s : Option KernelStatus)
  deriving DecidableEq, Repr

/-- The status an event hands to the shared `statusHandler` closure. -/
def eventStatus : WaitEvent → Option KernelStatus
  | WaitEvent.statusChanged s => some s
  | WaitEvent.kernelChanged s => s

/-- The `statusHandler` closure settles the race exactly on `idle` (resolve)
and on `dead` (reject); every other status is ignored. -/
def decidingStatus (s : KernelStatus) : Bool :=
  s == KernelStatus.idle || s == KernelStatus.dead

/-- The first status delivered to `statusHandler` that settles the race, if
any event settles it before the polling promise resolves. -/
def firstDeciding (events : List WaitEvent) : Option KernelStatus :=
  ((events.filterMap eventStatus).filter decidingStatus).head?

/-- The typed errors `waitForIdleOnSession` can reject with:
`JupyterInvalidKernelError` (carrying the snapshot kernel model, here its id)
and `JupyterWaitForIdleError`. -/
inductive IdleWaitError
  | invalidKernel (kernelId : String)
  | waitForIdleTimedOut
  deriving DecidableEq, Repr

/-- Everything observable about one `waitForIdleOnSession` call: its result
and which of its side actions ran. -/
structure WaitOutcome where
  result : Except IdleWaitError Unit
  shutdownInitiated : Bool
  statusListenerDisconnected : Bool
  kernelChangedListenerDisconnected : Bool
  commTargetRegistered : Bool
  deriving Repr

/-- `BaseJupyterSession.waitForIdleOnSession` (part_000 lines 487-567).
`kernel` is `session.kernel` at entry (`none` skips the whole body);
`events` are the signals delivered to the two registered listeners before the
race settles (the polling promise resolves once the sampled status is idle or
the timeout elapses, so the race always settles); `finalStatus` is
`session.kernel?.status` as re-sampled after the race.  A race settled by a
`dead` status rejects out of the `await` , so the two `disconnect` calls after
the race never run on that path. -/
def waitForIdleOnSession (kernel : Option KernelObj) (events : List WaitEvent)
    (finalStatus : Option KernelStatus) : WaitOutcome :=
  match kernel with
  | none =>
    { result := Except.ok (), shutdownInitiated := false,
      statusListenerDisconnected := false, kernelChangedListenerDisconnected := false,
      commTargetRegistered := false }
  | some k =>
    if firstDeciding events = some KernelStatus.dead then
      { result := Except.error (IdleWaitError.invalidKernel k.id),
        shutdownInitiated := true,
        statusListenerDisconnected := false, kernelChangedListenerDisconnected := false,
        commTargetRegistered := false }
    else if finalStatus = some KernelStatus.idle then
      { result := Except.ok (), shutdownInitiated := false,
        statusListenerDisconnected := true, kernelChangedListenerDisconnected := true,
        commTargetRegistered := true }
    else
      { result := Except.error IdleWaitError.waitForIdleTimedOut,
        shutdownInitiated := true,
        statusListenerDisconnected := true, kernelChangedListenerDisconnected := true,
        commTargetRegistered := false }

end JupyterModel

namespace JupyterExecution

/-- A connection handle as the retry loop reads it: base URL (used by the
translated errors) and locality. -/
structure ConnInfo where
  baseUrl : String
  localLaunch : Bool
  deriving DecidableEq, Repr

/-- An error raised inside one attempt of the loop: whether it is the typed
`JupyterWaitForIdleError`, plus its message. -/
structure AttemptError where
  isIdleTimeout : Bool
  message : String
  deriving DecidableEq, Repr

/-- What one iteration of `connectToNotebookServer`'s retry loop does, as seen
from the catch handler.  `failStartOrConnect`: the `Promise.all` of
`startOrConnect` and the metadata promise threw, so neither `connection` nor
`result` was (re)assigned this iteration.  `failAfterServer`: `connection` was
assigned and the server object `result` was created, then a later await
(remote kernel search or `result.connect`) threw. -/
inductive AttemptSpec
  | success (conn : ConnInfo)
  | failStartOrConnect (e : AttemptError)
  | failAfterServer (conn : ConnInfo) (e : AttemptError)
  deriving DecidableEq, Repr

/-- The error `connectToNotebookServer` finally throws: the typed self-signed
certificate error, the wrapped remote / local connect-failed messages (both
carrying the base URL and the original error), or the original error rethrown
untranslated when no connection object exists. -/
inductive ThrownError
  | selfCerts (baseUrl : String)
  | remoteConnectFailed (baseUrl : String) (orig : AttemptError)
  | localConnectFailed (baseUrl : String) (orig : AttemptError)
  | raw (orig : AttemptError)
  deriving DecidableEq, Repr

/-- Whether a thrown error is one of the loop's translated forms (as opposed
to the original error rethrown unchanged). -/
def isTranslated : ThrownError → Bool
  | ThrownError.selfCerts _ => true
  | ThrownError.remoteConnectFailed _ _ => true
  | ThrownError.localConnectFailed _ _ => true
  | ThrownError.raw _ => false

/-- Whether `pat` is a prefix of `l` (character lists). -/
def charsPrefix : List Char → List Char → Bool
  | [], _ => true
  | _ :: _, [] => false
  | a :: as, b :: bs => a == b && charsPrefix as bs

/-- Whether `pat` occurs as a contiguous sublist of `l`. -/
def charsContain (pat : List Char) : List Char → Bool
  | [] => charsPrefix pat []
  | c :: cs => charsPrefix pat (c :: cs) || charsContain pat cs

/-- `err.message.indexOf('reason: self signed certificate') >= 0`:
the message contains the self-signed-certificate signature. -/
def hasSelfCertSignature (msg : String) : Bool :=
  charsContain "reason: self signed certificate".toList msg.toList

/-- Cleanup / disposal actions the loop performs, in order.  A server object is
named by the attempt number that created it. -/
inductive LoopEffect
  | disposeServer (attempt : Nat)
  | disposeConnection (baseUrl : String)
  deriving DecidableEq, Repr

/-- How one run of the loop ends: a connected server, a thrown error, or the
retries exhausted ("start timed out", which returns `undefined` rather than
throwing). -/
inductive LoopExit
  | connected (attempts : Nat)
  | threw (e : ThrownError) (attempts : Nat)
  | timedOut
  deriving DecidableEq, Repr

/-- The error-translation tail of the catch handler (part_001 lines 250-278),
for the case where a connection object exists. -/
def translateError (isLocal : Bool) (conn : ConnInfo) (e : AttemptError) : ThrownError :=
  if !isLocal then
    if hasSelfCertSignature e.message then ThrownError.selfCerts conn.baseUrl
    else ThrownError.remoteConnectFailed conn.baseUrl e
  else
    ThrownError.localConnectFailed conn.baseUrl e

/-- One run of the retry loop of `connectToNotebookServer` (part_001 lines
155-298).  `outcomes n` is what attempt number `n` does; `tryCount` starts at
1; `conn` / `srv` are the loop-scoped `connection` and `result` variables,
which persist across iterations (neither is cleared after disposal).
`isLocal` is `isLocalConnection` (no URI in the options).  `fuel` bounds the
recursion by `maxTries - tryCount + 1`, matching the loop condition
`tryCount <= maxTries`. -/
def connectLoopGo (outcomes : Nat → AttemptSpec) (isLocal : Bool) (maxTries : Nat) :
    Nat → Nat → Option ConnInfo → Option Nat → List LoopEffect →
    LoopExit × List LoopEffect
  | 0, _, conn, _, acc =>
    -- tryCount > maxTries: starting jupyter timed out; kill any existing connection.
    (LoopExit.timedOut,
      acc ++ (match conn with
              | some c => [LoopEffect.disposeConnection c.baseUrl]
              | none => []))
  | fuel + 1, tryCount, conn, srv, acc =>
    match outcomes tryCount with
    | AttemptSpec.success _ => (LoopExit.connected tryCount, acc)
    | AttemptSpec.failStartOrConnect e =>
      -- connection and result keep their previous values.
      let acc1 := acc ++ (match srv with
                          | some n => [LoopEffect.disposeServer n]
                          | none => [])
      if e.isIdleTimeout && tryCount < maxTries then
        let acc2 := acc1 ++ (match conn with
                             | some c => [LoopEffect.disposeConnection c.baseUrl]
                             | none => [])
        connectLoopGo outcomes isLocal maxTries fuel (tryCount + 1) conn srv acc2
      else
        match conn with
        | some c => (LoopExit.threw (translateError isLocal c e) tryCount, acc1)
        | none => (LoopExit.threw (ThrownError.raw e) tryCount, acc1)
    | AttemptSpec.failAfterServer newConn e =>
      -- this attempt created a server object; dispose it.
      let acc1 := acc ++ [LoopEffect.disposeServer tryCount]
      if e.isIdleTimeout && tryCount < maxTries then
        let acc2 := acc1 ++ [LoopEffect.disposeConnection newConn.baseUrl]
        connectLoopGo outcomes isLocal maxTries fuel (tryCount + 1)
          (some newConn) (some tryCount) acc2
      else
        (LoopExit.threw (translateError isLocal newConn e) tryCount, acc1)

/-- The whole retry loop, from `tryCount = 1` with no connection and no server
object. -/
def connectToNotebookServer (outcomes : Nat → AttemptSpec) (isLocal : Bool)
    (maxTries : Nat) : LoopExit × List LoopEffect :=
  connectLoopGo outcomes isLocal maxTries maxTries 1 none none []

end JupyterExecution

namespace JupyterModel

/-- The can-shutdown predicate exactly as the specification words it: a
live-kernel session is not killable UNLESS the call cleans up a
restart-standby (always killable) or the resource is interactive-window-owned
(always killable); notebook resources on remote connections are suppressed;
everything else is killable.  Kept separate from `canShutdownSession`, which
is transcribed from the source, so the two can be compared. -/
def specCanShutdown (s : SessionObj) (isRestart : Bool) : Bool :=
  if s.kernelConnectionMetadata.map (·.kind) = some MetadataKind.connectToLiveKernel then
    (isRestart || s.resource.map getResourceType = some ResourceType.interactive)
  else if s.resource.map getResourceType = some ResourceType.notebook &&
      s.isRemoteSession then
    false
  else
    true

/-- A restart-standby session whose metadata is a live-kernel attach, on a
remote notebook resource. -/
def liveRestartStandby : SessionObj :=
  { sid := 1, kernel := some { id := "k1" }, isRemoteSession := true,
    resource := some ResourceType.notebook,
    kernelConnectionMetadata :=
      some { kind := MetadataKind.connectToLiveKernel, id := "live-1", kernelSpec := none },
    isDisposed := false }

/-- Metadata with a kernel spec, id "A". -/
def specMetaA : KernelConnectionMetadata :=
  { kind := MetadataKind.startUsingKernelSpec, id := "A",
    kernelSpec := some { specName := "python3" } }

/-- An ordinary local session running under `specMetaA`. -/
def plainSession : SessionObj :=
  { sid := 10, kernel := some { id := "old-kernel" }, isRemoteSession := false,
    resource := some ResourceType.notebook,
    kernelConnectionMetadata := some specMetaA, isDisposed := false }

/-- A pre-warmed standby session. -/
def standbySession : SessionObj :=
  { sid := 11, kernel := some { id := "new-kernel" }, isRemoteSession := false,
    resource := some ResourceType.notebook,
    kernelConnectionMetadata := some specMetaA, isDisposed := false }

/-- A session state with `plainSession` active and `standbySession` resolved
in the restart promise. -/
def runningState : SessionState :=
  { resource := some ResourceType.notebook, session := some plainSession,
    restartSessionPromise := some (some standbySession),
    kernelConnectionMetadata := some specMetaA }

/-- A session state with stored metadata but no active session (e.g. after the
active session was torn down). -/
def sessionlessState : SessionState :=
  { resource := none, session := none, restartSessionPromise := none,
    kernelConnectionMetadata := some specMetaA }

/-- The empty session state: nothing active, nothing stored. -/
def emptyState : SessionState :=
  { resource := none, session := none, restartSessionPromise := none,
    kernelConnectionMetadata := none }

/-- A remote session (live-kernel attach on a remote server). -/
def remoteLiveSession : SessionObj :=
  { sid := 20, kernel := some { id := "remote-kernel" }, isRemoteSession := true,
    resource := some ResourceType.notebook,
    kernelConnectionMetadata :=
      some { kind := MetadataKind.connectToLiveKernel, id := "live-2", kernelSpec := none },
    isDisposed := false }

/-- A session state whose active session is the remote one. -/
def remoteState : SessionState :=
  { resource := some ResourceType.notebook, session := some remoteLiveSession,
    restartSessionPromise := none,
    kernelConnectionMetadata := remoteLiveSession.kernelConnectionMetadata }

end JupyterModel

namespace JupyterExecution

/-- The typed wait-for-idle failure as the loop sees it. -/
def idleTimeoutErr : AttemptError :=
  { isIdleTimeout := true, message := "wait for idle timed out" }

/-- A non-idle-timeout failure. -/
def otherErr : AttemptError :=
  { isIdleTimeout := false, message := "connect ECONNREFUSED" }

/-- A failure whose message carries the self-signed-certificate signature. -/
def selfCertErr : AttemptError :=
  { isIdleTimeout := false,
    message := "request failed, reason: self signed certificate" }

/-- A remote connection handle. -/
def remoteConn : ConnInfo :=
  { baseUrl := "https://remote:9999/", localLaunch := false }

/-- A connector that fails with the typed wait-for-idle error on attempts 1
and 2 (each after creating the connection and the server object) and succeeds
on attempt 3. -/
def idleTwiceThenSuccess : Nat → AttemptSpec := fun n =>
  if n ≤ 2 then AttemptSpec.failAfterServer remoteConn idleTimeoutErr
  else AttemptSpec.success remoteConn

/-- A connector whose attempts fail inside `startOrConnect`, before any
connection object exists, with a non-idle-timeout error. -/
def failsBeforeConnection : Nat → AttemptSpec := fun _ =>
  AttemptSpec.failStartOrConnect otherErr

/-- A connector whose attempts fail after server creation with a
non-idle-timeout error. -/
def failsAfterServer : Nat → AttemptSpec := fun _ =>
  AttemptSpec.failAfterServer remoteConn otherErr

/-- A connector whose attempts fail after server creation with the
self-signed-certificate failure. -/
def failsSelfCert : Nat → AttemptSpec := fun _ =>
  AttemptSpec.failAfterServer remoteConn selfCertErr

end JupyterExecution

namespace JupyterModel

/-- C1, counterexample: for a restart-standby whose metadata is a live-kernel
attach, the claim's predicate says "always shut down" (true) but
`canShutdownSession` checks the live-kernel kind first and answers false, so
the session is only locally disposed. -/
theorem C1_counterexample :
    specCanShutdown liveRestartStandby true = true ∧
    canShutdownSession liveRestartStandby true = false ∧
    shutdownSessionEffects (some liveRestartStandby) false true =
      [Effect.localDispose 1] := by
  decide

/-- C1 (amended): can-shutdown is false for every live-kernel-attach session,
even for restart-standby cleanup and interactive-window resources; otherwise
it is true for restart-standby cleanup, true for interactive-window resources,
false for notebook resources on remote sessions, and true in all other cases
(first conjunct, as one boolean formula).  Whenever can-shutdown is false, the
call only disconnects the given status handler and locally disposes the
handle, and never sends a destructive backend shutdown request (second
conjunct); in particular a live-kernel-attach session is never sent a
destructive shutdown request (third conjunct). -/
theorem C1_canShutdownSession_spec (s : SessionObj) (withStatusHandler b : Bool) :
    (canShutdownSession s b =
      (!(s.kernelConnectionMetadata.map (·.kind) =
          some MetadataKind.connectToLiveKernel) &&
        (b || s.resource.map getResourceType = some ResourceType.interactive ||
          !(s.resource.map getResourceType = some ResourceType.notebook &&
            s.isRemoteSession)))) ∧
    (s.kernel.isSome → canShutdownSession s b = false →
      shutdownSessionEffects (some s) withStatusHandler b =
        (if withStatusHandler then [Effect.disconnectStatusListener s.sid] else []) ++
          [Effect.localDispose s.sid] ∧
      Effect.backendShutdownRequest s.sid ∉
        shutdownSessionEffects (some s) withStatusHandler b) ∧
    (s.kernelConnectionMetadata.map (·.kind) =
        some MetadataKind.connectToLiveKernel →
      Effect.backendShutdownRequest s.sid ∉
        shutdownSessionEffects (some s) withStatusHandler b) := by
  refine ⟨?_, ?_, ?_⟩
  · rcases s with ⟨sid, k, rem, res, md, disp⟩
    rcases md with _ | ⟨kind, mid, spec⟩ <;>
      rcases res with _ | rt <;>
        first
          | (cases rt <;> cases kind <;> cases b <;> cases rem <;>
              simp [canShutdownSession, getResourceType])
          | (try cases rt) <;> (try cases kind) <;> cases b <;> cases rem <;>
              simp [canShutdownSession, getResourceType]
  · intro hk hcan
    rcases s with ⟨sid, k, rem, res, md, disp⟩
    rcases k with _ | k
    · simp at hk
    · constructor
      · simp only [shutdownSessionEffects, Option.isSome_some, hcan]
        simp
      · simp only [shutdownSessionEffects, Option.isSome_some, hcan]
        cases withStatusHandler <;> simp
  · intro hlive
    have hcan : canShutdownSession s b = false := by
      simp [canShutdownSession, hlive]
    rcases s with ⟨sid, k, rem, res, md, disp⟩
    rcases k with _ | k
    · simp [shutdownSessionEffects]
    · simp only [shutdownSessionEffects, Option.isSome_some, hcan]
      cases withStatusHandler <;> simp

/-- C1, witness: the amended theorem applied to the live-kernel restart-standby
session, with both hypotheses discharged concretely. -/
theorem C1_canShutdownSession_spec_witness :
    shutdownSessionEffects (some liveRestartStandby) true true =
      [Effect.disconnectStatusListener 1, Effect.localDispose 1] ∧
    Effect.backendShutdownRequest 1 ∉
      shutdownSessionEffects (some liveRestartStandby) true true := by
  have h := C1_canShutdownSession_spec liveRestartStandby true true
  have h2 := h.2.1 (by decide) (by decide)
  exact ⟨by simpa using h2.1, h2.2⟩

/-- C3, counterexample: a session whose kernel status IS dead for the whole
wait but which delivers no status-changed / kernel-changed event is not
rejected with the invalid-kernel error; the polling promise only checks for
idle, so the call runs to the timeout and throws the wait-for-idle-timed-out
error instead. -/
theorem C3_counterexample :
    (waitForIdleOnSession (some { id := "k3" }) [] (some KernelStatus.dead)).result =
      Except.error IdleWaitError.waitForIdleTimedOut := by
  rfl

/-- C3 (amended): when the kernel's transition to dead is delivered through
one of the two registered subscriptions (status-changed or kernel-changed)
before anything settles the race, the call rejects with the typed
invalid-kernel error carrying the snapshot kernel model (here its id), after
initiating a non-blocking best-effort shutdown of the session; and when the
kernel's sampled status is dead the session's public status is Dead. -/
theorem C3_dead_event_rejects (k : KernelObj) (events : List WaitEvent)
    (finalStatus : Option KernelStatus)
    (h : firstDeciding events = some KernelStatus.dead) :
    (waitForIdleOnSession (some k) events finalStatus).result =
      Except.error (IdleWaitError.invalidKernel k.id) ∧
    (waitForIdleOnSession (some k) events finalStatus).shutdownInitiated = true ∧
    (finalStatus = some KernelStatus.dead →
      getServerStatus finalStatus = ServerStatus.dead) := by
  refine ⟨?_, ?_, ?_⟩
  · simp [waitForIdleOnSession, h]
  · simp [waitForIdleOnSession, h]
  · intro hf
    simp [hf, getServerStatus]

/-- C3, witness: the amended theorem at a concrete dead transition delivered
through the status-changed subscription. -/
theorem C3_dead_event_rejects_witness :
    (waitForIdleOnSession (some { id := "k3" })
        [WaitEvent.statusChanged KernelStatus.dead] (some KernelStatus.dead)).result =
      Except.error (IdleWaitError.invalidKernel "k3") ∧
    (waitForIdleOnSession (some { id := "k3" })
        [WaitEvent.statusChanged KernelStatus.dead] (some KernelStatus.dead)).shutdownInitiated
      = true ∧
    getServerStatus (some KernelStatus.dead) = ServerStatus.dead := by
  have h := C3_dead_event_rejects { id := "k3" }
    [WaitEvent.statusChanged KernelStatus.dead] (some KernelStatus.dead) (by decide)
  exact ⟨h.1, h.2.1, h.2.2 rfl⟩

/-- C4: a wait that is not settled by a dead event and whose re-sampled kernel
status is not idle (the timeout case) initiates a non-blocking shutdown of the
session and throws the typed wait-for-idle-timed-out error. -/
theorem C4_timeout_shuts_down_and_throws (k : KernelObj) (events : List WaitEvent)
    (finalStatus : Option KernelStatus)
    (hdead : firstDeciding events ≠ some KernelStatus.dead)
    (hidle : finalStatus ≠ some KernelStatus.idle) :
    (waitForIdleOnSession (some k) events finalStatus).result =
      Except.error IdleWaitError.waitForIdleTimedOut ∧
    (waitForIdleOnSession (some k) events finalStatus).shutdownInitiated = true := by
  constructor <;> simp [waitForIdleOnSession, hdead, hidle]

/-- C4, witness: a concrete wait that saw only busy statuses and timed out. -/
theorem C4_timeout_shuts_down_and_throws_witness :
    (waitForIdleOnSession (some { id := "k4" })
        [WaitEvent.statusChanged KernelStatus.busy] (some KernelStatus.busy)).result =
      Except.error IdleWaitError.waitForIdleTimedOut ∧
    (waitForIdleOnSession (some { id := "k4" })
        [WaitEvent.statusChanged KernelStatus.busy] (some KernelStatus.busy)).shutdownInitiated
      = true :=
  C4_timeout_shuts_down_and_throws { id := "k4" }
    [WaitEvent.statusChanged KernelStatus.busy] (some KernelStatus.busy)
    (by decide) (by decide)

/-- C5: evaluating the code at the failing input.  A wait settled by a dead
status-changed event rejects with the invalid-kernel error while BOTH
listeners registered by the call are still connected (the rejection propagates
out of the awaited race, skipping the two disconnect calls that follow it), so
the claim's "disconnected in every outcome" fails on the kernel-died outcome.
The second half of the claim does hold: a session already idle resolves
immediately with both listeners disconnected. -/
theorem C5_dead_rejection_leaks_listeners :
    (waitForIdleOnSession (some { id := "k5" })
        [WaitEvent.statusChanged KernelStatus.dead] (some KernelStatus.dead)).statusListenerDisconnected
      = false ∧
    (waitForIdleOnSession (some { id := "k5" })
        [WaitEvent.statusChanged KernelStatus.dead] (some KernelStatus.dead)).kernelChangedListenerDisconnected
      = false ∧
    (waitForIdleOnSession (some { id := "k5" })
        [WaitEvent.statusChanged KernelStatus.dead] (some KernelStatus.dead)).result =
      Except.error (IdleWaitError.invalidKernel "k5") ∧
    (waitForIdleOnSession (some { id := "k5" }) [] (some KernelStatus.idle)).result =
      Except.ok () ∧
    (waitForIdleOnSession (some { id := "k5" }) [] (some KernelStatus.idle)).statusListenerDisconnected
      = true ∧
    (waitForIdleOnSession (some { id := "k5" }) [] (some KernelStatus.idle)).kernelChangedListenerDisconnected
      = true := by
  refine ⟨rfl, rfl, rfl, rfl, rfl, rfl⟩

/-- C6, counterexample: a restart that swaps in an available standby clears
the standby promise and never invokes `startRestartSession` after the swap, so
construction of the next standby is NOT eagerly started (it is deferred to the
next restart), contrary to the claim. -/
theorem C6_counterexample :
    (restart runningState none).1.restartSessionPromise = none ∧
    Effect.startRestartSessionCalled ∉ (restart runningState none).2.1 ∧
    (restart runningState none).2.2 = none := by
  decide

/-- C6 (amended): (1) with a remote active session, restart is delegated to
the remote kernel's restart API and nothing else changes; (2) with a
non-remote active session and a resolved standby, the standby is swapped in as
the active session, the restart-session-used listener is notified with the new
kernel handle, the new session's status listener is connected, the old
session's status listener is disconnected, and the old session's non-blocking
shutdown is initiated — but the standby promise is simply cleared and the next
standby is NOT eagerly constructed; (3) when no standby promise exists and the
`startRestartSession` hook installs none, restart fails with the
session-disposed error. -/
theorem C6_restart_behavior (st : SessionState) (srr : Option (Option SessionObj))
    (old new : SessionObj) :
    (st.session = some old → old.isRemoteSession = true →
      restart st srr = (st, [Effect.remoteKernelRestart old.sid], none)) ∧
    (st.session = some old → old.isRemoteSession = false →
      st.restartSessionPromise = some (some new) →
      restart st srr =
        ({ st with session := some new, restartSessionPromise := none },
          setSessionEffects (some old) (some new) ++
            [Effect.restartSessionUsedNotified new.kernel,
             Effect.connectStatusListener new.sid,
             Effect.disconnectStatusListener old.sid] ++
            shutdownSessionEffects (some old) false false,
          none) ∧
      Effect.startRestartSessionCalled ∉ (restart st srr).2.1) ∧
    ((st.session.map (·.isRemoteSession)).getD false = false →
      st.restartSessionPromise = none →
      (restart st none).2.2 = some SessionError.sessionDisposed) := by
  refine ⟨?_, ?_, ?_⟩
  · intro hs hrem
    simp [restart, hs, hrem]
  · intro hs hrem hp
    have heq : restart st srr =
        ({ st with session := some new, restartSessionPromise := none },
          setSessionEffects (some old) (some new) ++
            [Effect.restartSessionUsedNotified new.kernel,
             Effect.connectStatusListener new.sid,
             Effect.disconnectStatusListener old.sid] ++
            shutdownSessionEffects (some old) false false,
          none) := by
      simp [restart, hs, hrem, hp]
    refine ⟨heq, ?_⟩
    rw [heq]
    rcases hk : old.kernel with _ | k
    · simp [setSessionEffects, shutdownSessionEffects, hk]
    · by_cases hcan : canShutdownSession old false = true <;>
        cases hd : old.isDisposed <;>
          simp [setSessionEffects, shutdownSessionEffects, hk, hcan, hd]
  · intro hrem hp
    simp only [restart, hrem, hp]
    simp [hp]

/-- C6, witness: the amended theorem applied to (a) the remote state, (b) the
running state with a resolved standby, and (c) the session-less state. -/
theorem C6_restart_behavior_witness :
    restart remoteState none =
      (remoteState, [Effect.remoteKernelRestart 20], none) ∧
    restart runningState none =
      ({ runningState with session := some standbySession, restartSessionPromise := none },
        setSessionEffects (some plainSession) (some standbySession) ++
          [Effect.restartSessionUsedNotified standbySession.kernel,
           Effect.connectStatusListener standbySession.sid,
           Effect.disconnectStatusListener plainSession.sid] ++
          shutdownSessionEffects (some plainSession) false false,
        none) ∧
    (restart sessionlessState none).2.2 = some SessionError.sessionDisposed := by
  refine ⟨?_, ?_, ?_⟩
  · exact (C6_restart_behavior remoteState none remoteLiveSession standbySession).1
      rfl (by decide)
  · exact ((C6_restart_behavior runningState none plainSession standbySession).2.1
      rfl (by decide) rfl).1
  · exact (C6_restart_behavior sessionlessState none plainSession standbySession).2.2
      (by decide) rfl

/-- C7, counterexample: with the stored metadata's id equal to the requested
metadata's id but NO active session, `changeKernel` is not a no-op: it still
calls `createNewKernelSession` (a session creation). -/
theorem C7_counterexample :
    sessionlessState.kernelConnectionMetadata.map (·.id) = some specMetaA.id ∧
    Effect.createNewKernelSessionCalled ∈
      (changeKernel sessionlessState none specMetaA standbySession).2 := by
  decide

/-- C7 (amended): `changeKernel` with a same-id metadata is a no-op — zero
session creations, zero shutdowns/disposals, stored metadata and active
session unchanged (only `this.resource` is re-assigned) — PROVIDED an active
session exists and both the stored and the requested metadata carry kernel
specs; without those preconditions the early-return is skipped. -/
theorem C7_changeKernel_same_id_noop (st : SessionState) (r : Resource)
    (kc : KernelConnectionMetadata) (ns : SessionObj) (m : KernelConnectionMetadata)
    (hs : st.session.isSome = true)
    (hm : st.kernelConnectionMetadata = some m)
    (hmk : kernelConnectionMetadataHasKernelSpec m = true)
    (hms : m.kernelSpec.isSome = true)
    (hkk : kernelConnectionMetadataHasKernelSpec kc = true)
    (hks : kc.kernelSpec.isSome = true)
    (hid : m.id = kc.id) :
    changeKernel st r kc ns = ({ st with resource := r }, []) := by
  simp [changeKernel, hs, hm, hmk, hms, hkk, hks, hid]

/-- C7, witness: the no-op at the running state with the stored metadata
requested again. -/
theorem C7_changeKernel_same_id_noop_witness :
    changeKernel runningState none specMetaA standbySession =
      ({ runningState with resource := none }, []) :=
  C7_changeKernel_same_id_noop runningState none specMetaA standbySession specMetaA
    (by decide) rfl (by decide) (by decide) (by decide) (by decide) rfl

/-- C9: `shutdown` is idempotent — after a completed first call the second
call performs no dispose or backend shutdown of any session handle (it only
re-disposes the status emitter) and leaves the state unchanged; and the first
call on a state with an active session performs the ordered teardown: primary
session (with the status handler, not as a restart session), then the awaited
standby (as a restart session), then the swap-in of `undefined`, then the
status-changed emitter disposal, clearing both the session and the standby
promise. -/
theorem C9_shutdown_idempotent (st : SessionState) :
    (shutdown (shutdown st).1).2 = [Effect.statusEmitterDisposed] ∧
    (shutdown (shutdown st).1).1 = (shutdown st).1 ∧
    (∀ s, st.session = some s →
      (shutdown st).2 =
        shutdownSessionEffects (some s) true false ++
          (match st.restartSessionPromise with
           | some r => shutdownSessionEffects r false true
           | none => []) ++
          setSessionEffects (some s) none ++ [Effect.statusEmitterDisposed] ∧
      (shutdown st).1.session = none ∧
      (shutdown st).1.restartSessionPromise = none) := by
  have hfst : (shutdown st).1.session = none := by
    rcases hs : st.session with _ | s <;> simp [shutdown, hs]
  have hsecond : ∀ st2 : SessionState, st2.session = none →
      shutdown st2 = (st2, [Effect.statusEmitterDisposed]) := by
    intro st2 h2
    simp [shutdown, h2]
  refine ⟨?_, ?_, ?_⟩
  · rw [hsecond _ hfst]
  · rw [hsecond _ hfst]
  · intro s hs
    rcases hp : st.restartSessionPromise with _ | p <;>
      simp [shutdown, hs, hp]

/-- C9, witness: both calls evaluated on the running state. -/
theorem C9_shutdown_idempotent_witness :
    (shutdown (shutdown runningState).1).2 = [Effect.statusEmitterDisposed] ∧
    (shutdown (shutdown runningState).1).1 = (shutdown runningState).1 ∧
    (shutdown runningState).1.session = none ∧
    (shutdown runningState).1.restartSessionPromise = none := by
  have h := C9_shutdown_idempotent runningState
  have h3 := h.2.2 plainSession rfl
  exact ⟨h.1, h.2.1, h3.2.1, h3.2.2⟩

/-- C10: with no active session (or a session without a kernel),
`requestExecute`, `requestDebug`, `requestInspect`, `requestComplete`,
`registerCommTarget`, `registerMessageHook` and `removeMessageHook` all throw
the session-disposed error, whereas `interrupt` and `sendInputReply` silently
return without sending anything to the backend. -/
theorem C10_no_session_asymmetry (st : SessionState)
    (h : sessionKernel st = none) :
    requestExecute st = Except.error SessionError.sessionDisposed ∧
    requestDebug st = Except.error SessionError.sessionDisposed ∧
    requestInspect st = Except.error SessionError.sessionDisposed ∧
    requestComplete st = Except.error SessionError.sessionDisposed ∧
    registerCommTarget st = Except.error SessionError.sessionDisposed ∧
    registerMessageHook st = Except.error SessionError.sessionDisposed ∧
    removeMessageHook st = Except.error SessionError.sessionDisposed ∧
    interrupt st = [] ∧
    sendInputReply st = [] := by
  rcases hs : st.session with _ | s
  · simp [requestExecute, requestDebug, requestInspect, requestComplete,
      registerCommTarget, registerMessageHook, removeMessageHook, interrupt,
      sendInputReply, hs]
  · have hk : s.kernel = none := by
      simpa [sessionKernel, hs] using h
    simp [requestExecute, requestDebug, requestInspect, requestComplete,
      registerCommTarget, registerMessageHook, removeMessageHook, interrupt,
      sendInputReply, hs, hk]

/-- C10, witness: the asymmetry evaluated at the empty state. -/
theorem C10_no_session_asymmetry_witness :
    requestExecute emptyState = Except.error SessionError.sessionDisposed ∧
    interrupt emptyState = [] ∧
    sendInputReply emptyState = [] := by
  have h := C10_no_session_asymmetry emptyState rfl
  exact ⟨h.1, h.2.2.2.2.2.2.2.1, h.2.2.2.2.2.2.2.2⟩

end JupyterModel

namespace JupyterExecution

/-- C2, counterexample: an attempt that fails before any connection object
exists (inside `startOrConnect`) with a non-idle-timeout error aborts the loop
immediately, but the error thrown is the ORIGINAL error rethrown unchanged,
not a translated one. -/
theorem C2_counterexample :
    connectToNotebookServer failsBeforeConnection false 3 =
      (LoopExit.threw (ThrownError.raw otherErr) 1, []) ∧
    isTranslated (ThrownError.raw otherErr) = false := by
  decide

/-- C2 (amended): (1) an attempt that created a connection and a server object
and then failed with the typed wait-for-idle error, with attempts remaining,
disposes the server object, disposes the connection, and continues as the next
attempt with an incremented counter; (2) such an attempt failing with any
other error is not retried: the loop aborts at that attempt with the
translated error, after disposing the server object (errors raised before a
connection object exists abort with the original error untranslated); (3) a
connector failing with the wait-for-idle error exactly twice and then
succeeding, with maxTries = 3, yields a connected server after exactly 3
attempts, with the failed server object and connection disposed between
attempts. -/
theorem C2_retry_policy (outcomes : Nat → AttemptSpec) (isLocal : Bool)
    (maxTries fuel tryCount : Nat) (conn : Option ConnInfo) (srv : Option Nat)
    (acc : List LoopEffect) (c : ConnInfo) (e : AttemptError) :
    (outcomes tryCount = AttemptSpec.failAfterServer c e →
      e.isIdleTimeout = true → tryCount < maxTries →
      connectLoopGo outcomes isLocal maxTries (fuel + 1) tryCount conn srv acc =
        connectLoopGo outcomes isLocal maxTries fuel (tryCount + 1)
          (some c) (some tryCount)
          (acc ++ [LoopEffect.disposeServer tryCount] ++
            [LoopEffect.disposeConnection c.baseUrl])) ∧
    (outcomes tryCount = AttemptSpec.failAfterServer c e →
      e.isIdleTimeout = false →
      connectLoopGo outcomes isLocal maxTries (fuel + 1) tryCount conn srv acc =
        (LoopExit.threw (translateError isLocal c e) tryCount,
          acc ++ [LoopEffect.disposeServer tryCount])) ∧
    connectToNotebookServer idleTwiceThenSuccess false 3 =
      (LoopExit.connected 3,
        [LoopEffect.disposeServer 1, LoopEffect.disposeConnection remoteConn.baseUrl,
         LoopEffect.disposeServer 2, LoopEffect.disposeConnection remoteConn.baseUrl]) := by
  refine ⟨?_, ?_, by decide⟩
  · intro hout hidle hlt
    simp [connectLoopGo, hout, hidle, hlt]
  · intro hout hidle
    simp [connectLoopGo, hout, hidle]

/-- C2, witness: the retry step and the abort step applied concretely — the
first idle-timeout attempt of the 3-attempt scenario becomes attempt 2 with
the server and connection disposed, and a non-idle failure after server
creation aborts at attempt 1 with the translated error. -/
theorem C2_retry_policy_witness :
    connectLoopGo idleTwiceThenSuccess false 3 3 1 none none [] =
      connectLoopGo idleTwiceThenSuccess false 3 2 2 (some remoteConn) (some 1)
        ([] ++ [LoopEffect.disposeServer 1] ++
          [LoopEffect.disposeConnection remoteConn.baseUrl]) ∧
    connectLoopGo failsAfterServer false 3 3 1 none none [] =
      (LoopExit.threw (translateError false remoteConn otherErr) 1,
        [] ++ [LoopEffect.disposeServer 1]) := by
  constructor
  · exact (C2_retry_policy idleTwiceThenSuccess false 3 2 1 none none []
      remoteConn idleTimeoutErr).1 (by decide) (by decide) (by decide)
  · exact (C2_retry_policy failsAfterServer false 3 2 1 none none []
      remoteConn otherErr).2.1 (by decide) (by decide)

/-- C8: a remote attempt that created a connection and a server object and
then failed with an error that is not retried throws the typed
self-signed-certificate error carrying the connection's base URL when the
message contains the self-signed-certificate signature, and otherwise the
generic remote notebook-failed-to-connect error wrapping the original error
and carrying the connection's base URL. -/
theorem C8_remote_error_translation (outcomes : Nat → AttemptSpec)
    (maxTries fuel tryCount : Nat) (conn : Option ConnInfo) (srv : Option Nat)
    (acc : List LoopEffect) (c : ConnInfo) (e : AttemptError)
    (hout : outcomes tryCount = AttemptSpec.failAfterServer c e)
    (hnoretry : e.isIdleTimeout = false ∨ maxTries ≤ tryCount) :
    connectLoopGo outcomes false maxTries (fuel + 1) tryCount conn srv acc =
      (LoopExit.threw
        (if hasSelfCertSignature e.message then ThrownError.selfCerts c.baseUrl
         else ThrownError.remoteConnectFailed c.baseUrl e) tryCount,
        acc ++ [LoopEffect.disposeServer tryCount]) := by
  have hcond : (e.isIdleTimeout && decide (tryCount < maxTries)) = false := by
    rcases hnoretry with h | h
    · simp [h]
    · simp [Nat.not_lt.mpr h]
  simp [connectLoopGo, hout, hcond, translateError]

/-- C8, witness: the translation at attempt 1 for a self-signed-certificate
failure and for an ordinary remote failure. -/
theorem C8_remote_error_translation_witness :
    connectLoopGo failsSelfCert false 3 3 1 none none [] =
      (LoopExit.threw (ThrownError.selfCerts remoteConn.baseUrl) 1,
        [] ++ [LoopEffect.disposeServer 1]) ∧
    connectLoopGo failsAfterServer false 1 1 1 none none [] =
      (LoopExit.threw (ThrownError.remoteConnectFailed remoteConn.baseUrl otherErr) 1,
        [] ++ [LoopEffect.disposeServer 1]) := by
  constructor
  · have h := C8_remote_error_translation failsSelfCert 3 2 1 none none []
      remoteConn selfCertErr (by decide) (Or.inl (by decide))
    simpa [show hasSelfCertSignature selfCertErr.message = true from by decide] using h
  · have h := C8_remote_error_translation failsAfterServer 1 0 1 none none []
      remoteConn otherErr (by decide) (Or.inr (by decide))
    simpa [show hasSelfCertSignature otherErr.message = false from by decide] using h

end JupyterExecution
